import Mathlib

/-!
Verification of the A/B-testing CTR analysis (AB-Testing_CTR.ipynb).

The notebook's statistical core is embedded shallowly over the reals:

* per-group counts (`dfCounts`: distinct users and summed clicks per group)
  become the structure `GroupCounts`;
* the pooled two-proportion Z-test of "Approach 1" (`p_pooled_hat`,
  `pooled_variance`, `SE`, `Test_stat`, `Z_crit`, `p_value`, the
  significance decision) becomes real-valued functions of the two groups;
* the confidence interval of Approach 1 (`CI = [round(diff - SE*Z_crit, 3),
  round(diff + SE*Z_crit, 3)]`) and its practical-significance decision
  `CI[0] >= delta` become `CI_lower`/`CI_upper`/`is_practically_significant`,
  with Python's 3-decimal banker's rounding modelled by `rnd`/`round3`;
* the effect-size computation of "Approach two" (`pooled_std_dev`, Cohen's
  `d`, the `if/elif` bucketing into `effect`) becomes `pooled_std_dev`,
  `cohens_d`, `effect`.

The SciPy routines `norm.cdf` (via `norm.sf x = 1 - norm.cdf x`) and
`norm.ppf` are external library collaborators; they enter as explicit
function parameters `Φ` (standard normal CDF) and `ppf` (its inverse),
so every theorem is stated for the actual functions the code calls.

NumPy float division by zero does not raise: `0.0/0.0` yields NaN with a
RuntimeWarning.  The tiny model `NpVal`/`npDiv` captures exactly that
behaviour at the one point where it matters (the degenerate
`standard_error = 0` case).
-/

namespace ABTest

/-- One row of `dfCounts`: distinct users and summed clicks of one group
(source: `df.groupby('group').agg({'user_id': 'nunique', 'click': 'sum'})`). -/
structure GroupCounts where
  users : ℕ
  clicks : ℕ
  deriving DecidableEq, Repr

/-- Error taxonomy of the spec (§7). -/
inductive ABError where
  | invalidInput
  | divisionByZero
  | configuration
  deriving DecidableEq, Repr

/-- Modelled from the spec: `GroupSummary` construction from pre-aggregated
counts (§4.1).  The notebook has no constructor or validation code — it only
aggregates a dataframe — so the fail-fast `InvalidInputError` behaviour is
taken from the spec's words: fail when `n_users == 0` or `n_clicks > n_users`. -/
def mkGroupSummaryCounts (n_users n_clicks : ℕ) : Except ABError GroupCounts :=
  if n_users = 0 then .error .invalidInput
  else if n_clicks > n_users then .error .invalidInput
  else .ok ⟨n_users, n_clicks⟩

/-- Modelled from the spec: `GroupSummary` construction from an ordered
sequence of per-event outcomes (§4.1): fail when the group is empty or some
outcome is not in {0,1}; otherwise aggregate to counts. -/
def mkGroupSummaryOutcomes (outcomes : List ℤ) : Except ABError GroupCounts :=
  if outcomes = [] then .error .invalidInput
  else if ∃ o ∈ outcomes, o ≠ 0 ∧ o ≠ 1 then .error .invalidInput
  else .ok ⟨outcomes.length, (outcomes.sum).toNat⟩

/-- NumPy float64 value: a real number, NaN, or an infinity. -/
inductive NpVal where
  | num : ℝ → NpVal
  | nan : NpVal
  | inf : NpVal

/-- NumPy float64 division of two finite values: division by zero emits a
RuntimeWarning and yields NaN (for `0/0`) or an infinity (for `x/0`, `x ≠ 0`);
it never raises an exception. -/
noncomputable def npDiv (x y : ℝ) : NpVal :=
  if y = 0 then (if x = 0 then .nan else .inf) else .num (x / y)

noncomputable section

/-- Per-group click probability estimate (`p_con_hat = X_con / N_con`). -/
def p_hat (g : GroupCounts) : ℝ := (g.clicks : ℝ) / (g.users : ℝ)

/-- Pooled click probability (`p_pooled_hat = (X_con + X_exp) / (N_con + N_exp)`). -/
def p_pooled_hat (con ex : GroupCounts) : ℝ :=
  ((con.clicks + ex.clicks : ℕ) : ℝ) / ((con.users + ex.users : ℕ) : ℝ)

/-- Pooled variance
(`pooled_variance = p_pooled_hat * (1 - p_pooled_hat) * (1/N_con + 1/N_exp)`). -/
def pooled_variance (con ex : GroupCounts) : ℝ :=
  p_pooled_hat con ex * (1 - p_pooled_hat con ex) *
    (1 / (con.users : ℝ) + 1 / (ex.users : ℝ))

/-- Standard error (`SE = np.sqrt(pooled_variance)`). -/
def SE (con ex : GroupCounts) : ℝ := Real.sqrt (pooled_variance con ex)

/-- Z-test statistic (`Test_stat = (p_con_hat - p_exp_hat) / SE`). -/
def Test_stat (con ex : GroupCounts) : ℝ := (p_hat con - p_hat ex) / SE con ex

/-- Critical Z value (`Z_crit = norm.ppf(1 - alpha/2)`); `ppf` is SciPy's
inverse standard normal CDF, passed in as the external collaborator it is. -/
def Z_crit (ppf : ℝ → ℝ) (alpha : ℝ) : ℝ := ppf (1 - alpha / 2)

/-- SciPy's survival function of the standard normal:
`norm.sf x = 1 - norm.cdf x`, with the CDF `Φ` passed in. -/
def norm_sf (Φ : ℝ → ℝ) (x : ℝ) : ℝ := 1 - Φ x

/-- Two-sided p-value (`p_value = 2 * norm.sf(abs(Test_stat))`). -/
def p_value (Φ : ℝ → ℝ) (con ex : GroupCounts) : ℝ :=
  2 * norm_sf Φ |Test_stat con ex|

/-- The notebook's significance decision: the `if p_value <= alpha` branch. -/
def is_significant (Φ : ℝ → ℝ) (con ex : GroupCounts) (alpha : ℝ) : Prop :=
  p_value Φ con ex ≤ alpha

/-- Python's `round` to the nearest integer, rounding ties to the even
integer (banker's rounding, used by `round(x, 3)` on float64). -/
def rnd (x : ℝ) : ℤ :=
  if Int.fract x = 1 / 2 then 2 * round (x / 2) else round x

/-- Python's `round(x, 3)`: round to 3 decimal places. -/
def round3 (x : ℝ) : ℝ := (rnd (1000 * x) : ℝ) / 1000

/-- Lower bound actually produced for the confidence interval
(`CI[0] = round((p_exp_hat - p_con_hat) - SE * Z_crit, 3)`). -/
def CI_lower (ppf : ℝ → ℝ) (con ex : GroupCounts) (alpha : ℝ) : ℝ :=
  round3 ((p_hat ex - p_hat con) - SE con ex * Z_crit ppf alpha)

/-- Upper bound actually produced for the confidence interval
(`CI[1] = round((p_exp_hat - p_con_hat) + SE * Z_crit, 3)`). -/
def CI_upper (ppf : ℝ → ℝ) (con ex : GroupCounts) (alpha : ℝ) : ℝ :=
  round3 ((p_hat ex - p_hat con) + SE con ex * Z_crit ppf alpha)

/-- The notebook's practical-significance decision: the
`if lower_bound_CI >= delta` branch, where `lower_bound_CI = CI[0]`. -/
def is_practically_significant (ppf : ℝ → ℝ) (con ex : GroupCounts)
    (alpha delta : ℝ) : Prop :=
  CI_lower ppf con ex alpha ≥ delta

/-- Pooled standard deviation as written in the source — it blends the
per-group standard deviations linearly, not their squares:
`pooled_std_dev = np.sqrt(((N_con-1)*s_con + (N_exp-1)*s_exp) / (N_con+N_exp-2))`.
The per-group standard deviations are the values the code reads from the
`CTR` dataframe, so they enter as parameters. -/
def pooled_std_dev (nCon nEx : ℕ) (sCon sEx : ℝ) : ℝ :=
  Real.sqrt ((((nCon : ℝ) - 1) * sCon + ((nEx : ℝ) - 1) * sEx) /
    ((nCon : ℝ) + (nEx : ℝ) - 2))

/-- Cohen's d (`d = (CTR_exp - CTR_con) / pooled_std_dev`), with the two
CTRs read from the `CTR` dataframe entering as parameters. -/
def cohens_d (rCon rEx psd : ℝ) : ℝ := (rEx - rCon) / psd

end

/-- Effect-size category; the constructors name, in order, the source
strings 'little or no effect', 'small effect size', 'medium effect size',
'large effect size'. -/
inductive Effect where
  | negligible
  | small
  | medium
  | large
  deriving DecidableEq, Repr

open Classical in
/-- The source's `if/elif` bucketing of Cohen's d.  `none` models the fall-
through for negative `d`, where the Python variable `effect` is never
assigned (a subsequent use raises NameError). -/
noncomputable def effect (d : ℝ) : Option Effect :=
  if 0 ≤ d ∧ d < 0.2 then some .negligible
  else if 0.2 ≤ d ∧ d < 0.5 then some .small
  else if 0.5 ≤ d ∧ d < 0.8 then some .medium
  else if 0.8 ≤ d then some .large
  else none

/-! ## Rounding lemmas -/

/-- Rounding to the nearest integer commutes with negation away from ties. -/
theorem round_negOf {x : ℝ} (h : Int.fract x ≠ 1 / 2) :
    round (-x) = -round x := by
  have hx := Int.floor_add_fract x
  have h0 := Int.fract_nonneg x
  have h1 := Int.fract_lt_one x
  rw [round_eq, round_eq]
  rcases lt_or_gt_of_ne h with hlt | hgt
  · have e1 : ⌊x + 1 / 2⌋ = ⌊x⌋ := by
      apply Int.floor_eq_iff.mpr
      constructor <;> linarith
    have e2 : ⌊-x + 1 / 2⌋ = -⌊x⌋ := by
      apply Int.floor_eq_iff.mpr
      push_cast
      constructor <;> linarith
    rw [e1, e2]
  · have e1 : ⌊x + 1 / 2⌋ = ⌊x⌋ + 1 := by
      apply Int.floor_eq_iff.mpr
      push_cast
      constructor <;> linarith
    have e2 : ⌊-x + 1 / 2⌋ = -⌊x⌋ - 1 := by
      apply Int.floor_eq_iff.mpr
      push_cast
      constructor <;> linarith
    rw [e1, e2]
    ring

/-- Banker's rounding commutes with negation everywhere (the tie case is
symmetric because the even neighbour of `-x` is minus that of `x`). -/
theorem rnd_neg (x : ℝ) : rnd (-x) = -rnd x := by
  unfold rnd
  by_cases h : Int.fract x = 1 / 2
  · have hf0 : Int.fract x ≠ 0 := by rw [h]; norm_num
    have hneg : Int.fract (-x) = 1 / 2 := by rw [Int.fract_neg hf0, h]; norm_num
    rw [if_pos hneg, if_pos h]
    have hhalf : Int.fract (x / 2) ≠ 1 / 2 := by
      intro hc
      have hx2 : x / 2 = (⌊x / 2⌋ : ℝ) + 1 / 2 := by
        have hfl := Int.floor_add_fract (x / 2)
        rw [hc] at hfl
        linarith
      have hx' : x = ((2 * ⌊x / 2⌋ + 1 : ℤ) : ℝ) := by push_cast; linarith
      rw [hx', Int.fract_intCast] at h
      norm_num at h
    have hdiv : -x / 2 = -(x / 2) := by ring
    rw [hdiv, round_negOf hhalf]
    ring
  · have hneg : Int.fract (-x) ≠ 1 / 2 := by
      by_cases h0 : Int.fract x = 0
      · rw [Int.fract_neg_eq_zero.mpr h0]
        norm_num
      · rw [Int.fract_neg h0]
        intro hc
        apply h
        linarith
    rw [if_neg hneg, if_neg h, round_negOf h]

/-- 3-decimal rounding commutes with negation. -/
theorem round3_neg (x : ℝ) : round3 (-x) = -round3 x := by
  unfold round3
  rw [show 1000 * -x = -(1000 * x) by ring, rnd_neg]
  push_cast
  ring

/-- Evaluation of `rnd` strictly inside an integer's half-open neighbourhood
(no tie possible there). -/
theorem rnd_eq_of {x : ℝ} {k : ℤ} (h1 : (k : ℝ) - 1 / 2 < x)
    (h2 : x < (k : ℝ) + 1 / 2) : rnd x = k := by
  have hne : Int.fract x ≠ 1 / 2 := by
    intro hc
    have hfl := Int.floor_add_fract x
    rw [hc] at hfl
    have ha : k - 1 < ⌊x⌋ := by
      have : (k : ℝ) - 1 < (⌊x⌋ : ℝ) := by linarith
      exact_mod_cast this
    have hb : ⌊x⌋ < k := by
      have : (⌊x⌋ : ℝ) < (k : ℝ) := by linarith
      exact_mod_cast this
    omega
  unfold rnd
  rw [if_neg hne, round_eq]
  apply Int.floor_eq_iff.mpr
  constructor
  · linarith
  · have : ((k : ℝ)) + 1 / 2 ≤ (k : ℝ) + 1 := by norm_num
    linarith

/-- Evaluation of `round3` at a point whose thousandfold is strictly inside
an integer's half-open neighbourhood. -/
theorem round3_eq_of {x : ℝ} {k : ℤ} (h1 : (k : ℝ) - 1 / 2 < 1000 * x)
    (h2 : 1000 * x < (k : ℝ) + 1 / 2) : round3 x = (k : ℝ) / 1000 := by
  unfold round3
  rw [rnd_eq_of h1 h2]

/-! ## Claims -/

/-- C1: for every pair of groups with positive user counts the two-proportion
test computes `pooled_rate = (clicks_con + clicks_exp) / (users_con + users_exp)`,
`pooled_variance = pooled_rate * (1 - pooled_rate) * (1/users_con + 1/users_exp)`,
`standard_error = sqrt(pooled_variance)` and
`z_statistic = (rate_con - rate_exp) / standard_error` (control minus
experimental), exactly as the formulas state. -/
theorem C1_pooled_test_formulas (con ex : GroupCounts)
    (_hcon : 0 < con.users) (_hex : 0 < ex.users) :
    p_pooled_hat con ex
        = ((con.clicks : ℝ) + (ex.clicks : ℝ)) / ((con.users : ℝ) + (ex.users : ℝ))
    ∧ pooled_variance con ex
        = p_pooled_hat con ex * (1 - p_pooled_hat con ex)
            * (1 / (con.users : ℝ) + 1 / (ex.users : ℝ))
    ∧ SE con ex = Real.sqrt (pooled_variance con ex)
    ∧ Test_stat con ex = (p_hat con - p_hat ex) / SE con ex := by
  refine ⟨?_, rfl, rfl, rfl⟩
  unfold p_pooled_hat
  push_cast
  rfl

/-- Witness for C1 at the notebook's own scenario counts. -/
theorem C1_pooled_test_formulas_witness :
    0 < (40000 : ℕ)
    ∧ SE ⟨40000, 1580⟩ ⟨40000, 1850⟩
        = Real.sqrt (pooled_variance ⟨40000, 1580⟩ ⟨40000, 1850⟩) :=
  ⟨by decide,
    (C1_pooled_test_formulas ⟨40000, 1580⟩ ⟨40000, 1850⟩ (by decide) (by decide)).2.2.1⟩

/-- C2: for every test run `p_value = 2 * (1 - Φ |z_statistic|)` where `Φ` is
the standard normal CDF the code calls (`norm.sf x = 1 - norm.cdf x`), and the
significance decision holds iff `p_value ≤ alpha`. -/
theorem C2_p_value_significance (Φ : ℝ → ℝ) (con ex : GroupCounts) (alpha : ℝ) :
    p_value Φ con ex = 2 * (1 - Φ |Test_stat con ex|)
    ∧ (is_significant Φ con ex alpha ↔ p_value Φ con ex ≤ alpha) :=
  ⟨rfl, Iff.rfl⟩

/-- Witness for C2 at concrete values. -/
theorem C2_p_value_significance_witness :
    p_value (fun x => x) ⟨2, 1⟩ ⟨2, 1⟩
      = 2 * (1 - |Test_stat ⟨2, 1⟩ ⟨2, 1⟩|) :=
  (C2_p_value_significance (fun x => x) ⟨2, 1⟩ ⟨2, 1⟩ 1).1

/-- C3 (the code evaluated at the failing input): with both groups at 40000
users and 0 clicks the standard error is exactly 0, and the NumPy float
division that computes the z-statistic yields NaN — it does not raise a
DivisionByZeroError as the claim requires. -/
theorem C3_zero_se_yields_nan :
    SE ⟨40000, 0⟩ ⟨40000, 0⟩ = 0
    ∧ npDiv (p_hat ⟨40000, 0⟩ - p_hat ⟨40000, 0⟩) (SE ⟨40000, 0⟩ ⟨40000, 0⟩)
        = NpVal.nan := by
  have hvar : pooled_variance ⟨40000, 0⟩ ⟨40000, 0⟩ = 0 := by
    unfold pooled_variance p_pooled_hat
    norm_num
  have hse : SE ⟨40000, 0⟩ ⟨40000, 0⟩ = 0 := by
    rw [SE, hvar, Real.sqrt_zero]
  refine ⟨hse, ?_⟩
  rw [hse]
  simp [npDiv]

/-- C9: groups with equal user counts and equal click counts give
`z_statistic = 0`, `p_value = 1` and a negative significance decision, for
the standard normal CDF (`Φ 0 = 1/2`) and any significance level below 1. -/
theorem C9_identical_groups (Φ : ℝ → ℝ) (con ex : GroupCounts) (alpha : ℝ)
    (husers : con.users = ex.users) (hclicks : con.clicks = ex.clicks)
    (hΦ : Φ 0 = 1 / 2) (halpha : alpha < 1) :
    Test_stat con ex = 0 ∧ p_value Φ con ex = 1
      ∧ ¬ is_significant Φ con ex alpha := by
  have hrate : p_hat con = p_hat ex := by
    unfold p_hat
    rw [husers, hclicks]
  have hz : Test_stat con ex = 0 := by
    unfold Test_stat
    rw [hrate, sub_self, zero_div]
  have hp : p_value Φ con ex = 1 := by
    unfold p_value norm_sf
    rw [hz, abs_zero, hΦ]
    norm_num
  refine ⟨hz, hp, ?_⟩
  unfold is_significant
  rw [hp]
  intro hc
  linarith

/-- Witness for C9: two identical groups of 5 users with 2 clicks, the CDF
model taking value 1/2 at 0, and alpha = 1/2. -/
theorem C9_identical_groups_witness :
    (⟨5, 2⟩ : GroupCounts).users = (⟨5, 2⟩ : GroupCounts).users
    ∧ (1 : ℝ) / 2 < 1
    ∧ Test_stat ⟨5, 2⟩ ⟨5, 2⟩ = 0 :=
  ⟨rfl, by norm_num,
    (C9_identical_groups (fun _ => 1 / 2) ⟨5, 2⟩ ⟨5, 2⟩ (1 / 2) rfl rfl rfl
      (by norm_num)).1⟩

/-- C8: swapping the control and experimental groups flips the sign of the
z-statistic and the signs of the produced confidence-interval bounds (the
lower bound of the swap is minus the original upper bound and vice versa),
while the p-value and the critical value are unchanged. -/
theorem C8_swap_symmetry (Φ ppf : ℝ → ℝ) (con ex : GroupCounts) (alpha : ℝ)
    (_hcon : 0 < con.users) (_hex : 0 < ex.users)
    (_h0 : 0 < alpha) (_h1 : alpha < 1) :
    Test_stat ex con = -Test_stat con ex
    ∧ CI_lower ppf ex con alpha = -CI_upper ppf con ex alpha
    ∧ CI_upper ppf ex con alpha = -CI_lower ppf con ex alpha
    ∧ p_value Φ ex con = p_value Φ con ex
    ∧ Z_crit ppf alpha = Z_crit ppf alpha := by
  have hpool : p_pooled_hat ex con = p_pooled_hat con ex := by
    unfold p_pooled_hat
    rw [Nat.add_comm ex.clicks con.clicks, Nat.add_comm ex.users con.users]
  have hvar : pooled_variance ex con = pooled_variance con ex := by
    unfold pooled_variance
    rw [hpool]
    ring
  have hse : SE ex con = SE con ex := by
    unfold SE
    rw [hvar]
  have hz : Test_stat ex con = -Test_stat con ex := by
    unfold Test_stat
    rw [hse]
    ring
  refine ⟨hz, ?_, ?_, ?_, rfl⟩
  · unfold CI_lower CI_upper
    rw [hse, show p_hat con - p_hat ex - SE con ex * Z_crit ppf alpha
          = -(p_hat ex - p_hat con + SE con ex * Z_crit ppf alpha) by ring,
      round3_neg]
  · unfold CI_upper CI_lower
    rw [hse, show p_hat con - p_hat ex + SE con ex * Z_crit ppf alpha
          = -(p_hat ex - p_hat con - SE con ex * Z_crit ppf alpha) by ring,
      round3_neg]
  · unfold p_value
    rw [hz, abs_neg]

/-- Witness for C8: the swap identity for the z-statistic at groups
(2 users, 1 click) and (2 users, 0 clicks) with alpha = 1/2. -/
theorem C8_swap_symmetry_witness :
    0 < (2 : ℕ) ∧ Test_stat ⟨2, 0⟩ ⟨2, 1⟩ = -Test_stat ⟨2, 1⟩ ⟨2, 0⟩ :=
  ⟨by decide,
    (C8_swap_symmetry (fun x => x) (fun x => x) ⟨2, 1⟩ ⟨2, 0⟩ (1 / 2)
      (by decide) (by decide) (by norm_num) (by norm_num)).1⟩

/-- C5: for groups with more than two users in total and a nonzero pooled
standard deviation, Cohen's d is `(rate_exp - rate_con) / pooled_std_dev`
with `pooled_std_dev = sqrt(((n_con - 1)*s_con + (n_exp - 1)*s_exp) /
(n_con + n_exp - 2))` — the source's linear blend of standard deviations,
not variances. -/
theorem C5_cohens_d_formula (nCon nEx : ℕ) (sCon sEx rCon rEx : ℝ)
    (_hn : 2 < nCon + nEx) (_hpsd : pooled_std_dev nCon nEx sCon sEx ≠ 0) :
    cohens_d rCon rEx (pooled_std_dev nCon nEx sCon sEx)
      = (rEx - rCon) /
        Real.sqrt ((((nCon : ℝ) - 1) * sCon + ((nEx : ℝ) - 1) * sEx)
          / ((nCon : ℝ) + (nEx : ℝ) - 2)) := rfl

/-- Witness for C5 at two groups of 3 users with unit standard deviations. -/
theorem C5_cohens_d_formula_witness :
    2 < 3 + 3
    ∧ pooled_std_dev 3 3 1 1 ≠ 0
    ∧ cohens_d 0 1 (pooled_std_dev 3 3 1 1)
        = (1 - 0) /
          Real.sqrt (((((3 : ℕ) : ℝ) - 1) * 1 + (((3 : ℕ) : ℝ) - 1) * 1)
            / (((3 : ℕ) : ℝ) + ((3 : ℕ) : ℝ) - 2)) := by
  have hpsd : pooled_std_dev 3 3 1 1 = 1 := by
    unfold pooled_std_dev
    norm_num
  exact ⟨by norm_num, by rw [hpsd]; norm_num,
    C5_cohens_d_formula 3 3 1 1 0 1 (by norm_num) (by rw [hpsd]; norm_num)⟩

/-- C6 counterexample: d = -1 satisfies d < 0.2, yet the source's bucketing
assigns no category at all (every `if/elif` guard fails), so the claim
"d < 0.2 → negligible" is false for negative d. -/
theorem C6_counterexample : (-1 : ℝ) < 0.2 ∧ effect (-1) = none := by
  refine ⟨by norm_num, ?_⟩
  unfold effect
  norm_num

/-- C6 amended: for nonnegative d the buckets are inclusive on their lower
bounds exactly as claimed (d < 0.2 negligible, 0.2 ≤ d < 0.5 small,
0.5 ≤ d < 0.8 medium, 0.8 ≤ d large); a negative d falls through with no
category assigned. -/
theorem C6_bucketing (d : ℝ) :
    (0 ≤ d →
      (d < 0.2 → effect d = some Effect.negligible)
      ∧ (0.2 ≤ d → d < 0.5 → effect d = some Effect.small)
      ∧ (0.5 ≤ d → d < 0.8 → effect d = some Effect.medium)
      ∧ (0.8 ≤ d → effect d = some Effect.large))
    ∧ (d < 0 → effect d = none) := by
  unfold effect
  constructor
  · intro h0
    refine ⟨?_, ?_, ?_, ?_⟩
    · intro h
      rw [if_pos ⟨h0, h⟩]
    · intro h2 h5
      rw [if_neg (fun hc => by linarith [hc.2]), if_pos ⟨h2, h5⟩]
    · intro h5 h8
      rw [if_neg (fun hc => by linarith [hc.2]),
        if_neg (fun hc => by linarith [hc.2]), if_pos ⟨h5, h8⟩]
    · intro h8
      rw [if_neg (fun hc => by linarith [hc.2]),
        if_neg (fun hc => by linarith [hc.2]),
        if_neg (fun hc => by linarith [hc.2]), if_pos h8]
  · intro hneg
    rw [if_neg (fun hc => by linarith [hc.1]),
      if_neg (fun hc => by linarith [hc.1]),
      if_neg (fun hc => by linarith [hc.1]), if_neg (by intro hc; linarith)]

/-- Witness for C6 at the boundary value d = 0.2, which lands in the small
bucket. -/
theorem C6_bucketing_witness :
    (0 : ℝ) ≤ 0.2 ∧ effect 0.2 = some Effect.small :=
  ⟨by norm_num,
    ((C6_bucketing 0.2).1 (by norm_num)).2.1 (by norm_num) (by norm_num)⟩

/-- C4 counterexample: with control = experimental = (2 users, 1 click) and
the critical value 1.959964, the produced lower bound is the 3-decimal
rounding -0.98, not the exact value `diff - standard_error * z_critical
= -0.979982` the claim states. -/
theorem C4_counterexample :
    CI_lower (fun _ => 1.959964) ⟨2, 1⟩ ⟨2, 1⟩ 0.05
      ≠ (p_hat ⟨2, 1⟩ - p_hat ⟨2, 1⟩)
          - SE ⟨2, 1⟩ ⟨2, 1⟩ * Z_crit (fun _ => 1.959964) 0.05 := by
  have hvar : pooled_variance ⟨2, 1⟩ ⟨2, 1⟩ = 1 / 4 := by
    unfold pooled_variance p_pooled_hat
    norm_num
  have hse : SE ⟨2, 1⟩ ⟨2, 1⟩ = 1 / 2 := by
    rw [SE, hvar, show (1 / 4 : ℝ) = (1 / 2) ^ 2 by norm_num,
      Real.sqrt_sq (by norm_num)]
  have harg : (p_hat ⟨2, 1⟩ - p_hat ⟨2, 1⟩)
      - SE ⟨2, 1⟩ ⟨2, 1⟩ * Z_crit (fun _ => 1.959964) 0.05 = -0.979982 := by
    rw [hse]
    unfold p_hat
    simp only [Z_crit]
    norm_num
  rw [CI_lower, harg, round3_eq_of (k := -980) (by norm_num) (by norm_num)]
  norm_num

/-- C4 amended: the produced confidence-interval bounds are the exact values
`diff ∓ standard_error * z_critical` rounded to three decimal places, and the
practical-significance decision is `lower ≥ delta` on the produced (rounded)
lower bound. -/
theorem C4_ci_rounded (ppf : ℝ → ℝ) (con ex : GroupCounts)
    (alpha delta : ℝ) (_hcon : 0 < con.users) (_hex : 0 < ex.users) :
    CI_lower ppf con ex alpha
        = round3 (p_hat ex - p_hat con - SE con ex * Z_crit ppf alpha)
    ∧ CI_upper ppf con ex alpha
        = round3 (p_hat ex - p_hat con + SE con ex * Z_crit ppf alpha)
    ∧ (is_practically_significant ppf con ex alpha delta
        ↔ CI_lower ppf con ex alpha ≥ delta) :=
  ⟨rfl, rfl, Iff.rfl⟩

/-- Witness for C4 (amended) at concrete groups. -/
theorem C4_ci_rounded_witness :
    0 < (2 : ℕ)
    ∧ CI_lower (fun x => x) ⟨2, 1⟩ ⟨2, 2⟩ (1 / 2)
        = round3 (p_hat ⟨2, 2⟩ - p_hat ⟨2, 1⟩
            - SE ⟨2, 1⟩ ⟨2, 2⟩ * Z_crit (fun x => x) (1 / 2)) :=
  ⟨by decide,
    (C4_ci_rounded (fun x => x) ⟨2, 1⟩ ⟨2, 2⟩ (1 / 2) 0
      (by decide) (by decide)).1⟩

/-- C10: the produced confidence-interval bounds are the exact values rounded
to three decimal places and the practical-significance comparison is made
against the rounded lower bound; at control = (2 users, 0 clicks),
experimental = (2 users, 2 clicks), critical value 1.8008 and delta = 0.1 the
exact lower bound 0.0996 is within 0.0005 of delta, the rounded decision is
positive while the decision on the unrounded bound is negative. -/
theorem C10_rounding_decision :
    (∀ (ppf : ℝ → ℝ) (con ex : GroupCounts) (alpha delta : ℝ),
      CI_lower ppf con ex alpha
          = round3 (p_hat ex - p_hat con - SE con ex * Z_crit ppf alpha)
      ∧ CI_upper ppf con ex alpha
          = round3 (p_hat ex - p_hat con + SE con ex * Z_crit ppf alpha)
      ∧ (is_practically_significant ppf con ex alpha delta
          ↔ CI_lower ppf con ex alpha ≥ delta))
    ∧ (|p_hat ⟨2, 2⟩ - p_hat ⟨2, 0⟩
          - SE ⟨2, 0⟩ ⟨2, 2⟩ * Z_crit (fun _ => 1.8008) 0.05 - 0.1| < 0.0005
        ∧ is_practically_significant (fun _ => 1.8008) ⟨2, 0⟩ ⟨2, 2⟩ 0.05 0.1
        ∧ ¬ (p_hat ⟨2, 2⟩ - p_hat ⟨2, 0⟩
              - SE ⟨2, 0⟩ ⟨2, 2⟩ * Z_crit (fun _ => 1.8008) 0.05 ≥ 0.1)) := by
  refine ⟨fun ppf con ex alpha delta => ⟨rfl, rfl, Iff.rfl⟩, ?_⟩
  have hvar : pooled_variance ⟨2, 0⟩ ⟨2, 2⟩ = 1 / 4 := by
    unfold pooled_variance p_pooled_hat
    norm_num
  have hse : SE ⟨2, 0⟩ ⟨2, 2⟩ = 1 / 2 := by
    rw [SE, hvar, show (1 / 4 : ℝ) = (1 / 2) ^ 2 by norm_num,
      Real.sqrt_sq (by norm_num)]
  have harg : p_hat ⟨2, 2⟩ - p_hat ⟨2, 0⟩
      - SE ⟨2, 0⟩ ⟨2, 2⟩ * Z_crit (fun _ => 1.8008) 0.05 = 0.0996 := by
    rw [hse]
    unfold p_hat
    simp only [Z_crit]
    norm_num
  refine ⟨by rw [harg]; norm_num [abs_lt], ?_, by rw [harg]; norm_num⟩
  unfold is_practically_significant CI_lower
  rw [harg, round3_eq_of (k := 100) (by norm_num) (by norm_num)]
  norm_num

/-- Witness for C10: the first component instantiated at concrete values. -/
theorem C10_rounding_decision_witness :
    CI_lower (fun x => x) ⟨2, 1⟩ ⟨2, 0⟩ (1 / 2)
      = round3 (p_hat ⟨2, 0⟩ - p_hat ⟨2, 1⟩
          - SE ⟨2, 1⟩ ⟨2, 0⟩ * Z_crit (fun x => x) (1 / 2)) :=
  (C10_rounding_decision.1 (fun x => x) ⟨2, 1⟩ ⟨2, 0⟩ (1 / 2) 0).1

/-- C7 (spec-modelled): GroupSummary construction fails with InvalidInputError
exactly when `n_users = 0` or `n_clicks > n_users` (pre-aggregated form), or
when the outcome sequence is empty or contains a value outside {0,1}
(per-event form); the `Except` return type surfaces each failure at the point
of computation instead of producing a NaN or undefined value. -/
theorem C7_group_summary_validation :
    (∀ n_users n_clicks : ℕ,
      mkGroupSummaryCounts n_users n_clicks = .error .invalidInput
        ↔ n_users = 0 ∨ n_clicks > n_users)
    ∧ (∀ outcomes : List ℤ,
      mkGroupSummaryOutcomes outcomes = .error .invalidInput
        ↔ outcomes = [] ∨ ∃ o ∈ outcomes, o ≠ 0 ∧ o ≠ 1) := by
  constructor
  · intro n_users n_clicks
    unfold mkGroupSummaryCounts
    by_cases h0 : n_users = 0
    · simp [h0]
    · by_cases h1 : n_clicks > n_users
      · simp [h0, h1]
      · simp [h0, h1]
  · intro outcomes
    unfold mkGroupSummaryOutcomes
    by_cases h0 : outcomes = []
    · simp [h0]
    · by_cases h1 : ∃ o ∈ outcomes, o ≠ 0 ∧ o ≠ 1
      · simp [h0, h1]
      · simp [h0, h1]

/-- Witness for C7: the validation outcome at concrete inputs — zero users is
rejected, 3 users with 5 clicks is rejected, and the outcome list [0, 1, 2]
is rejected for the out-of-range value 2. -/
theorem C7_group_summary_validation_witness :
    mkGroupSummaryCounts 0 0 = .error .invalidInput
    ∧ mkGroupSummaryCounts 3 5 = .error .invalidInput
    ∧ mkGroupSummaryOutcomes [0, 1, 2] = .error .invalidInput :=
  ⟨(C7_group_summary_validation.1 0 0).mpr (Or.inl rfl),
    (C7_group_summary_validation.1 3 5).mpr (Or.inr (by norm_num)),
    (C7_group_summary_validation.2 [0, 1, 2]).mpr
      (Or.inr ⟨2, by norm_num, by norm_num, by norm_num⟩)⟩

end ABTest
